import Mathlib

set_option maxHeartbeats 1000000
set_option linter.unnecessarySeqFocus false

/-!
Shallow embedding of the Patient Management System (src/main.py).

The service keeps a flat id-keyed collection of raw patient records in a
JSON file.  The pydantic model `Patient` validates a raw mapping into a
typed record and carries two `@computed_field` properties `bmi` and
`bmi_category`; `PatientUpdate` is the request body of the partial-update
endpoint.  Endpoints: create (`create_patiet`), update (`update_patient`),
sort (`sort_patients`).

Modelling conventions:
* Python floats are modelled as exact rationals (`ℚ`); the claims under
  study are about the algebraic relations between fields, not rounding.
* A JSON value is `JValue`; a raw record is a structure with one
  `Option JValue` field per key that can occur in a stored record
  (`none` = key absent from the mapping).
* The store (the parsed contents of `patients.JSON`) is an association
  list in insertion order, mirroring a Python dict.
* A raised exception is an `ApiError` result; `save_patient_data` is only
  reached on the success path of each endpoint, so an error result means
  the persisted snapshot is untouched (`storeAfter`).
* pydantic v2 semantics are embedded where the source relies on them:
  `model_dump` includes `@computed_field`s; a field annotated
  `Optional[T]` with no default is required (the key must be present,
  its value may be `null`); extra keys are ignored on validation.
  String-to-number lax coercions are not modelled (no claim involves
  them).
-/

/-- JSON-style value as stored in a raw patient record.  Python floats are
modelled as exact rationals. -/
inductive JValue : Type
  | jnull : JValue
  | jstr : String → JValue
  | jint : Int → JValue
  | jfloat : ℚ → JValue
deriving DecidableEq

/-- Gender enumeration, from `Literal["Male", "Female", "Other"]` on
`Patient.gender` (src/main.py line 15). -/
inductive Gender : Type
  | Male : Gender
  | Female : Gender
  | Other : Gender
deriving DecidableEq

/-- String form of a gender value, as serialized by `model_dump`. -/
def Gender.str : Gender → String
  | .Male => "Male"
  | .Female => "Female"
  | .Other => "Other"

/-- Validated patient model (`class Patient`, src/main.py lines 9-16): the id
plus the six primary fields, in source declaration order. -/
structure Patient : Type where
  id : String
  name : String
  city : String
  age : Int
  height : ℚ
  gender : Gender
  weight : ℚ
deriving DecidableEq

/-- Computed field `bmi` (src/main.py lines 18-23): `weight / height ** 2`
when both `weight` and `height` are truthy (non-zero floats), else `None`. -/
def Patient.bmi (p : Patient) : Option ℚ :=
  if p.weight ≠ 0 ∧ p.height ≠ 0 then some (p.weight / p.height ^ 2) else none

/-- Classification body of `bmi_category` (src/main.py lines 27-38), as a
function of the computed `bmi` value.  The thresholds are the source's
decimal literals written as exact fractions: 37/2 = 18.5, 249/10 = 24.9,
299/10 = 29.9 (decimal literals on `ℚ` are irreducible in this toolchain,
which would block concrete evaluation). -/
def bmiCategoryOf : Option ℚ → String
  | none => "Unknown"
  | some bmi =>
    if bmi < 37 / 2 then "Underweight"
    else if 37 / 2 ≤ bmi ∧ bmi < 249 / 10 then "Normal weight"
    else if 25 ≤ bmi ∧ bmi < 299 / 10 then "Overweight"
    else "Obesity"

/-- Computed field `bmi_category` (src/main.py lines 25-38). -/
def Patient.bmi_category (p : Patient) : String := bmiCategoryOf p.bmi

/-- Raw patient record: the untyped field-name-to-value mapping as stored in
`patients.JSON`.  A field is `none` when the key is absent.  The `bmi` and
`bmi_category` keys can occur because `model_dump` serializes computed
fields. -/
structure RawRecord : Type where
  name : Option JValue := none
  city : Option JValue := none
  age : Option JValue := none
  height : Option JValue := none
  gender : Option JValue := none
  weight : Option JValue := none
  bmi : Option JValue := none
  bmi_category : Option JValue := none
deriving DecidableEq

/-- Validation of a JSON value against `str` (pydantic v2: a string is
required; `null` and numbers are rejected). -/
def asStr : JValue → Option String
  | .jstr s => some s
  | _ => none

/-- Validation of a JSON value against `int` (pydantic v2 lax mode: an int, or
a float with no fractional part). -/
def asInt : JValue → Option Int
  | .jint n => some n
  | .jfloat q => if q.den = 1 then some q.num else none
  | _ => none

/-- Validation of a JSON value against `float` (pydantic v2 lax mode: a float
or an int). -/
def asFloat : JValue → Option ℚ
  | .jfloat q => some q
  | .jint n => some (n : ℚ)
  | _ => none

/-- Validation of a JSON value against
`Literal["Male", "Female", "Other"]`. -/
def asGender : JValue → Option Gender
  | .jstr "Male" => some Gender.Male
  | .jstr "Female" => some Gender.Female
  | .jstr "Other" => some Gender.Other
  | _ => none

/-- Validation of a raw mapping into a `Patient` with the given id —
`Patient(**existing_patient)` after `existing_patient['id'] = patient_id`
(src/main.py lines 108-110), and the body-validation of the create endpoint.
Every primary field key must be present with a value of the right type;
extra keys (such as a stored `bmi`) are ignored (pydantic default
`extra='ignore'`). -/
def validate (id : String) (r : RawRecord) : Option Patient :=
  match r.name.bind asStr, r.city.bind asStr, r.age.bind asInt,
      r.height.bind asFloat, r.gender.bind asGender, r.weight.bind asFloat with
  | some n, some c, some a, some h, some g, some w =>
    some { id := id, name := n, city := c, age := a, height := h, gender := g, weight := w }
  | _, _, _, _, _, _ => none

/-- JSON serialization of an `Optional[float]` value. -/
def jOfOptFloat : Option ℚ → JValue
  | none => JValue.jnull
  | some q => JValue.jfloat q

/-- Serialization `patient.model_dump(exclude=['id'])` (src/main.py lines 93
and 113): every primary field except `id`, plus the two `@computed_field`s
`bmi` and `bmi_category`, which pydantic v2 includes in `model_dump`. -/
def Patient.model_dump_exclude_id (p : Patient) : RawRecord :=
  { name := some (JValue.jstr p.name)
    city := some (JValue.jstr p.city)
    age := some (JValue.jint p.age)
    height := some (JValue.jfloat p.height)
    gender := some (JValue.jstr p.gender.str)
    weight := some (JValue.jfloat p.weight)
    bmi := some (jOfOptFloat p.bmi)
    bmi_category := some (JValue.jstr p.bmi_category) }

/-- Update payload model (`class PatientUpdate`, src/main.py lines 40-46) as
it exists after pydantic validation.  A field value is `none` when the field
was not supplied (not in `model_fields_set`, so dropped by
`model_dump(exclude_unset=True)`), and `some v` when it was supplied, where
`v : Option T` is `none` exactly when the supplied JSON value was `null`. -/
structure PatientUpdate : Type where
  name : Option (Option String) := none
  city : Option (Option String) := none
  age : Option (Option Int) := none
  height : Option (Option ℚ) := none
  gender : Option (Option Gender) := none
  weight : Option (Option ℚ) := none
deriving DecidableEq

/-- Raw JSON body of the update endpoint, before pydantic validation: one
optional JSON value per `PatientUpdate` field (`none` = key absent). -/
structure RawPayload : Type where
  name : Option JValue := none
  city : Option JValue := none
  age : Option JValue := none
  height : Option JValue := none
  gender : Option JValue := none
  weight : Option JValue := none
deriving DecidableEq

/-- Validation of one `PatientUpdate` field.  Each field of `PatientUpdate`
is annotated `Optional[T]` with a `Field(...)` that carries no default, so
under pydantic v2 the field is required: an absent key fails validation; a
present key may hold `null` (yielding an explicitly-null set field) or a
value of type `T`. -/
def fieldVal {α : Type} (as : JValue → Option α) : Option JValue → Option (Option α)
  | none => none
  | some JValue.jnull => some none
  | some v => (as v).map some

/-- Validation of the update request body into a `PatientUpdate`
(the pydantic validation FastAPI runs on the body of
`PUT /update/{patient_id}`, src/main.py lines 40-46 and 98).  On success
every field is marked as set, since all six are required. -/
def validatePatientUpdate (p : RawPayload) : Option PatientUpdate :=
  match fieldVal asStr p.name, fieldVal asStr p.city, fieldVal asInt p.age,
      fieldVal asFloat p.height, fieldVal asGender p.gender, fieldVal asFloat p.weight with
  | some n, some c, some a, some h, some g, some w =>
    some { name := some n, city := some c, age := some a, height := some h,
           gender := some g, weight := some w }
  | _, _, _, _, _, _ => none

/-- JSON serialization of an `Optional[str]` value. -/
def jOfOptStr : Option String → JValue
  | none => JValue.jnull
  | some s => JValue.jstr s

/-- JSON serialization of an `Optional[int]` value. -/
def jOfOptInt : Option Int → JValue
  | none => JValue.jnull
  | some n => JValue.jint n

/-- JSON serialization of an optional gender value. -/
def jOfOptGender : Option Gender → JValue
  | none => JValue.jnull
  | some g => JValue.jstr g.str

/-- The merge loop of the update endpoint (src/main.py lines 103-106):
`updated_data = patient_update.model_dump(exclude_unset=True)` followed by
`existing_patient[key] = value` for each supplied key.  Exactly the set
fields of the payload overwrite the raw mapping; unset fields are left
alone. -/
def applyUpdate (r : RawRecord) (u : PatientUpdate) : RawRecord :=
  { r with
    name := match u.name with | none => r.name | some v => some (jOfOptStr v)
    city := match u.city with | none => r.city | some v => some (jOfOptStr v)
    age := match u.age with | none => r.age | some v => some (jOfOptInt v)
    height := match u.height with | none => r.height | some v => some (jOfOptFloat v)
    gender := match u.gender with | none => r.gender | some v => some (jOfOptGender v)
    weight := match u.weight with | none => r.weight | some v => some (jOfOptFloat v) }

/-- Parsed contents of `patients.JSON`: the id-keyed collection of raw
records, in insertion order (a Python dict). -/
abbrev Store : Type := List (String × RawRecord)

/-- Lookup `data[patient_id]` / membership test source (first matching key;
a well-formed store has distinct keys). -/
def getKey : Store → String → Option RawRecord
  | [], _ => none
  | (k, v) :: rest, id => if k = id then some v else getKey rest id

/-- Membership test `patient_id in data`. -/
def hasKey (s : Store) (id : String) : Bool :=
  (getKey s id).isSome

/-- Assignment `data[key] = v` on a Python dict: replaces the value in place
when the key is present, otherwise appends the new key at the end. -/
def setKey : Store → String → RawRecord → Store
  | [], id, v => [(id, v)]
  | (k, w) :: rest, id, v =>
    if k = id then (id, v) :: rest else (k, w) :: setKey rest id v

/-- Error raised by an endpoint: an `HTTPException(status_code, detail)`, a
pydantic `ValidationError` escaping `Patient(**existing_patient)`, or a
`TypeError` escaping a `sorted` comparison.  Detail strings are kept
verbatim except that quote and bracket punctuation is dropped. -/
inductive ApiError : Type
  | http : Nat → String → ApiError
  | validation : ApiError
  | typeErr : ApiError
deriving DecidableEq

/-- Result of a mutating endpoint on the persisted snapshot:
`save_patient_data` is reached only on the success path, so an error leaves
the snapshot as it was before the call. -/
def storeAfter (result : Except ApiError Store) (before : Store) : Store :=
  match result with
  | .ok s => s
  | .error _ => before

/-- Create endpoint (`create_patiet`, src/main.py lines 85-96), given the
already-validated request body.  Rejects an existing id with a 400, else
stores `patient.model_dump(exclude=['id'])` and saves. -/
def create_patiet (s : Store) (patient : Patient) : Except ApiError Store :=
  if hasKey s patient.id then
    .error (.http 400 "Patient ID already exists")
  else
    .ok (setKey s patient.id patient.model_dump_exclude_id)

/-- Update endpoint (`update_patient`, src/main.py lines 97-118), given the
already-validated request body.  404 when the id is absent; merges the set
payload fields over the stored raw mapping, force-sets `id` to the path id,
re-validates the merged mapping through `Patient(**existing_patient)`
(a pydantic `ValidationError` escapes uncaught, before any save), then
persists `model_dump(exclude={'id'})` of the re-validated patient. -/
def update_patient (s : Store) (patient_id : String) (patient_update : PatientUpdate) :
    Except ApiError Store :=
  match getKey s patient_id with
  | none => .error (.http 404 "Patient not found")
  | some existing_patient =>
    match validate patient_id (applyUpdate existing_patient patient_update) with
    | none => .error .validation
    | some p => .ok (setKey s patient_id p.model_dump_exclude_id)

/-- Python `x.get(sort_by)` on a raw record. -/
def rawGet (r : RawRecord) : String → Option JValue
  | "name" => r.name
  | "city" => r.city
  | "age" => r.age
  | "height" => r.height
  | "gender" => r.gender
  | "weight" => r.weight
  | "bmi" => r.bmi
  | "bmi_category" => r.bmi_category
  | _ => none

/-- Numeric sort key of a record for the sort endpoint: the value
`x.get(sort_by)` when it is a number.  A missing key or a non-numeric value
(such as a stored `null` bmi) cannot be compared with numbers by Python and
makes `sorted` raise `TypeError`; this embedding reports that error whenever
any record's key is non-numeric (Python would only raise when such a value
actually takes part in a comparison, e.g. not on a one-record store — no
claim depends on that difference). -/
def sortKeyOf (sort_by : String) (r : RawRecord) : Option ℚ :=
  match rawGet r sort_by with
  | some (JValue.jfloat q) => some q
  | some (JValue.jint n) => some (n : ℚ)
  | _ => none

/-- Extraction of the sort keys of all records, in store order; `none` when
some record has no numeric key. -/
def keyedVals (sort_by : String) : List RawRecord → Option (List (ℚ × RawRecord))
  | [] => some []
  | r :: rs =>
    match sortKeyOf sort_by r, keyedVals sort_by rs with
    | some q, some ks => some ((q, r) :: ks)
    | _, _ => none

/-- Stable insertion of an element in front of the first list element it
compares at-or-before. -/
def insertLe {α : Type} (le : α → α → Bool) (a : α) : List α → List α
  | [] => [a]
  | b :: bs => if le a b then a :: b :: bs else b :: insertLe le a bs

/-- Stable sort by a boolean comparison.  Python `sorted` is a stable sort;
for a total transitive comparison the stable result is unique, so this
insertion sort produces exactly the list Python `sorted` returns. -/
def sortLe {α : Type} (le : α → α → Bool) : List α → List α
  | [] => []
  | a :: as => insertLe le a (sortLe le as)

/-- Sort endpoint (`sort_patients`, src/main.py lines 73-84): validates
`sort_by` against `['height', 'weight', 'bmi']` and `order` against
`['asc', 'desc']` (each failure is a 400 raised before the store is read),
then returns `sorted(data.values(), key=lambda x: x.get(sort_by),
reverse=(order == 'desc'))` — the stored raw mappings themselves, ordered by
the raw key value; `reverse=True` sorts as if each comparison were
reversed, keeping equal keys stable. -/
def sort_patients (s : Store) (sort_by : String) (order : String) :
    Except ApiError (List RawRecord) :=
  if sort_by ∉ (["height", "weight", "bmi"] : List String) then
    .error (.http 400 "Invalid sort_by field. Must be one of height, weight, bmi")
  else if order ∉ (["asc", "desc"] : List String) then
    .error (.http 400 "Invalid order. Must be asc or desc")
  else
    match keyedVals sort_by (s.map Prod.snd) with
    | none => .error .typeErr
    | some ks =>
      .ok ((sortLe (fun a b =>
        if order = "desc" then decide (b.1 ≤ a.1) else decide (a.1 ≤ b.1)) ks).map Prod.snd)

/-- Update payload with no fields set: the body of an update request that
supplies no field at all. -/
def emptyUpdate : PatientUpdate := {}

/-- Update payload that sets only `weight`, to the value `W`. -/
def weightOnlyUpdate (W : ℚ) : PatientUpdate :=
  { weight := some (some W) }

/-- Names of the six primary fields of a patient record. -/
inductive PField : Type
  | name : PField
  | city : PField
  | age : PField
  | height : PField
  | gender : PField
  | weight : PField
deriving DecidableEq

/-- Update payload that supplies exactly one field, explicitly as `null`. -/
def nullOnlyUpdate : PField → PatientUpdate
  | .name => { name := some none }
  | .city => { city := some none }
  | .age => { age := some none }
  | .height => { height := some none }
  | .gender => { gender := some none }
  | .weight => { weight := some none }

/-- Projection of a raw record at a primary field name. -/
def rawField : PField → RawRecord → Option JValue
  | .name, r => r.name
  | .city, r => r.city
  | .age, r => r.age
  | .height, r => r.height
  | .gender, r => r.gender
  | .weight, r => r.weight

/-- Sample patient used for concrete evaluations (height 7/4 = 1.75 m,
weight 70 kg, bmi 160/7 = 22.857...). -/
def samplePatient : Patient :=
  { id := "P001", name := "John Doe", city := "New York", age := 30,
    height := 7 / 4, gender := Gender.Male, weight := 70 }

/-- Persisted form of the sample patient, as `create_patiet` writes it. -/
def sampleRaw : RawRecord := samplePatient.model_dump_exclude_id

/-- One-record store holding the persisted sample patient under "P001". -/
def sampleStore : Store := [("P001", sampleRaw)]

/-- Raw record for the sample patient as a hand-written store file would
hold it: the six primary fields only, no derived keys. -/
def plainRaw : RawRecord :=
  { name := some (JValue.jstr "John Doe"), city := some (JValue.jstr "New York"),
    age := some (JValue.jint 30), height := some (JValue.jfloat (7 / 4)),
    gender := some (JValue.jstr "Male"), weight := some (JValue.jfloat 70) }

/-- Raw record whose gender is not one of the enumerated values. -/
def badRaw : RawRecord :=
  { name := some (JValue.jstr "Jane Roe"), city := some (JValue.jstr "Boston"),
    age := some (JValue.jint 40), height := some (JValue.jfloat (17 / 10)),
    gender := some (JValue.jstr "Unknown"), weight := some (JValue.jfloat 60) }

/-- Introduction form of `validate`: it succeeds on a raw mapping whose six
primary fields all validate, and builds the patient from the validated
values with the supplied id. -/
theorem validate_some_of {id n c : String} {r : RawRecord} {a : Int} {h w : ℚ} {g : Gender}
    (hn : r.name.bind asStr = some n) (hc : r.city.bind asStr = some c)
    (ha : r.age.bind asInt = some a) (hh : r.height.bind asFloat = some h)
    (hg : r.gender.bind asGender = some g) (hw : r.weight.bind asFloat = some w) :
    validate id r =
      some { id := id, name := n, city := c, age := a, height := h, gender := g, weight := w } := by
  simp [validate, hn, hc, ha, hh, hg, hw]

/-- Elimination form of `validate`: a successful validation pins down every
primary field of the result, and the id of the result is the supplied id. -/
theorem validate_fields {id : String} {r : RawRecord} {p : Patient}
    (hp : validate id r = some p) :
    r.name.bind asStr = some p.name ∧ r.city.bind asStr = some p.city ∧
    r.age.bind asInt = some p.age ∧ r.height.bind asFloat = some p.height ∧
    r.gender.bind asGender = some p.gender ∧ r.weight.bind asFloat = some p.weight ∧
    p.id = id := by
  rcases hn : r.name.bind asStr with _ | n <;>
  rcases hc : r.city.bind asStr with _ | c <;>
  rcases ha : r.age.bind asInt with _ | a <;>
  rcases hh : r.height.bind asFloat with _ | h <;>
  rcases hg : r.gender.bind asGender with _ | g <;>
  rcases hw : r.weight.bind asFloat with _ | w <;>
  simp only [validate, hn, hc, ha, hh, hg, hw, Option.some.injEq,
    reduceCtorEq] at hp <;>
  subst hp <;> simp

/-- Serialization round trip: the persisted dump of a patient re-validates
to the same patient under its own id (validation ignores the serialized
derived fields). -/
theorem validate_dump {id : String} {p : Patient} (hid : p.id = id) :
    validate id p.model_dump_exclude_id = some p := by
  subst hid
  have hn : (p.model_dump_exclude_id).name.bind asStr = some p.name := rfl
  have hc : (p.model_dump_exclude_id).city.bind asStr = some p.city := rfl
  have ha : (p.model_dump_exclude_id).age.bind asInt = some p.age := rfl
  have hh : (p.model_dump_exclude_id).height.bind asFloat = some p.height := rfl
  have hw : (p.model_dump_exclude_id).weight.bind asFloat = some p.weight := rfl
  have hg : (p.model_dump_exclude_id).gender.bind asGender = some p.gender := by
    cases hgg : p.gender <;>
      simp [Patient.model_dump_exclude_id, Gender.str, hgg, asGender]
  exact validate_some_of hn hc ha hh hg hw

/-- Merging the no-fields-set payload leaves a raw mapping unchanged. -/
theorem applyUpdate_empty (r : RawRecord) : applyUpdate r emptyUpdate = r := rfl

/-- Writing back the value a key already holds leaves the store unchanged. -/
theorem getKey_setKey_self {s : Store} {id : String} {v : RawRecord}
    (h : getKey s id = some v) : setKey s id v = s := by
  induction s with
  | nil => simp [getKey] at h
  | cons kv rest ih =>
    obtain ⟨k, w⟩ := kv
    by_cases hk : k = id
    · subst hk
      have hwv : w = v := by simpa [getKey] using h
      subst hwv
      simp [setKey]
    · simp only [getKey, if_neg hk] at h
      simp [setKey, hk, ih h]

/-- A key just written reads back the written value. -/
theorem getKey_setKey (s : Store) (id : String) (v : RawRecord) :
    getKey (setKey s id v) id = some v := by
  induction s with
  | nil => simp [setKey, getKey]
  | cons kv rest ih =>
    obtain ⟨k, w⟩ := kv
    by_cases hk : k = id
    · subst hk; simp [setKey, getKey]
    · simp [setKey, hk, getKey, ih]

/-- Successful key extraction pairs each stored record with its key, in
order. -/
theorem keyedVals_map_snd {f : String} :
    ∀ {l : List RawRecord} {ks : List (ℚ × RawRecord)},
      keyedVals f l = some ks → ks.map Prod.snd = l := by
  intro l
  induction l with
  | nil =>
    intro ks h
    simp only [keyedVals, Option.some.injEq] at h
    subst h
    rfl
  | cons r rs ih =>
    intro ks h
    simp only [keyedVals] at h
    rcases hq : sortKeyOf f r with _ | q <;> rw [hq] at h
    · simp at h
    · rcases hrest : keyedVals f rs with _ | ks' <;> rw [hrest] at h
      · simp at h
      · simp only [Option.some.injEq] at h
        subst h
        simp [ih hrest]

/-- Insertion permutes: inserting an element yields a permutation of consing
it. -/
theorem insertLe_perm {α : Type} (le : α → α → Bool) (a : α) :
    ∀ l : List α, List.Perm (insertLe le a l) (a :: l) := by
  intro l
  induction l with
  | nil => exact List.Perm.refl _
  | cons b bs ih =>
    by_cases h : le a b = true
    · simp [insertLe, h]
    · simp only [insertLe, if_neg h]
      exact (ih.cons b).trans (List.Perm.swap a b bs)

/-- Sorting permutes its input. -/
theorem sortLe_perm {α : Type} (le : α → α → Bool) :
    ∀ l : List α, List.Perm (sortLe le l) l := by
  intro l
  induction l with
  | nil => exact List.Perm.refl _
  | cons a as ih =>
    exact (insertLe_perm le a (sortLe le as)).trans (ih.cons a)

/-- Insertion into a list sorted by a total transitive comparison keeps it
sorted. -/
theorem insertLe_pairwise {α : Type} {le : α → α → Bool}
    (total : ∀ a b, le a b = true ∨ le b a = true)
    (htrans : ∀ a b c, le a b = true → le b c = true → le a c = true)
    (a : α) : ∀ {l : List α}, l.Pairwise (fun x y => le x y = true) →
      (insertLe le a l).Pairwise (fun x y => le x y = true) := by
  intro l hl
  induction l with
  | nil => simp [insertLe]
  | cons b bs ih =>
    rcases hl with - | ⟨hb, hbs⟩
    by_cases h : le a b = true
    · simp only [insertLe, if_pos h]
      refine List.Pairwise.cons ?_ (List.Pairwise.cons hb hbs)
      intro x hx
      rcases List.mem_cons.mp hx with rfl | hx
      · exact h
      · exact htrans a b x h (hb x hx)
    · simp only [insertLe, if_neg h]
      refine List.Pairwise.cons ?_ (ih hbs)
      intro x hx
      rcases List.mem_cons.mp ((insertLe_perm le a bs).mem_iff.mp hx) with rfl | hx
      · rcases total x b with htot | htot
        · exact absurd htot h
        · exact htot
      · exact hb x hx

/-- Sorting by a total transitive comparison yields a sorted list. -/
theorem sortLe_pairwise {α : Type} {le : α → α → Bool}
    (total : ∀ a b, le a b = true ∨ le b a = true)
    (htrans : ∀ a b c, le a b = true → le b c = true → le a c = true) :
    ∀ l : List α, (sortLe le l).Pairwise (fun x y => le x y = true) := by
  intro l
  induction l with
  | nil => exact List.Pairwise.nil
  | cons a as ih => exact insertLe_pairwise total htrans a ih

/-- Second sample patient, identical to the first but under a fresh id. -/
def samplePatient2 : Patient := { samplePatient with id := "P002" }

/-- C1 counterexample: creating the sample patient on an empty store
persists a raw mapping that does contain the derived keys `bmi` and
`bmi_category` (with the recomputed values), because pydantic v2
`model_dump` serializes `@computed_field`s and only `id` is excluded. -/
theorem C1_counterexample :
    create_patiet [] samplePatient = .ok [("P001", sampleRaw)] ∧
    sampleRaw.bmi = some (JValue.jfloat (160 / 7)) ∧
    sampleRaw.bmi ≠ none ∧
    sampleRaw.bmi_category = some (JValue.jstr "Normal weight") ∧
    sampleRaw.bmi_category ≠ none := by
  refine ⟨by with_unfolding_all rfl, by with_unfolding_all rfl,
    by with_unfolding_all decide, by with_unfolding_all rfl,
    by with_unfolding_all decide⟩

/-- C1 amended: every record persisted by the create and the update (merge)
operation is the `model_dump(exclude id)` of the materialized patient: it
contains the six primary fields and ALSO the derived fields `bmi` and
`bmi_category`, freshly recomputed from `height`/`weight` at
materialization time; only `id` is excluded from the persisted mapping. -/
theorem C1_amended_persisted_shape (s : Store) (p : Patient) (id : String)
    (u : PatientUpdate) (r : RawRecord) (q : Patient)
    (hc : hasKey s p.id = false)
    (hr : getKey s id = some r)
    (hv : validate id (applyUpdate r u) = some q) :
    create_patiet s p = .ok (setKey s p.id p.model_dump_exclude_id) ∧
    getKey (setKey s p.id p.model_dump_exclude_id) p.id = some p.model_dump_exclude_id ∧
    update_patient s id u = .ok (setKey s id q.model_dump_exclude_id) ∧
    getKey (setKey s id q.model_dump_exclude_id) id = some q.model_dump_exclude_id ∧
    (∀ z : Patient,
      z.model_dump_exclude_id.name = some (JValue.jstr z.name) ∧
      z.model_dump_exclude_id.city = some (JValue.jstr z.city) ∧
      z.model_dump_exclude_id.age = some (JValue.jint z.age) ∧
      z.model_dump_exclude_id.height = some (JValue.jfloat z.height) ∧
      z.model_dump_exclude_id.gender = some (JValue.jstr z.gender.str) ∧
      z.model_dump_exclude_id.weight = some (JValue.jfloat z.weight) ∧
      z.model_dump_exclude_id.bmi = some (jOfOptFloat z.bmi) ∧
      z.model_dump_exclude_id.bmi_category = some (JValue.jstr z.bmi_category)) := by
  refine ⟨?_, getKey_setKey s p.id p.model_dump_exclude_id, ?_,
    getKey_setKey s id q.model_dump_exclude_id,
    fun z => ⟨rfl, rfl, rfl, rfl, rfl, rfl, rfl, rfl⟩⟩
  · simp [create_patiet, hc]
  · simp [update_patient, hr, hv]

/-- C1 amended, witness: concrete create of a fresh patient and concrete
empty-payload update of the stored sample patient, on the one-record
sample store. -/
theorem C1_amended_witness :
    create_patiet sampleStore samplePatient2 =
      .ok (setKey sampleStore "P002" samplePatient2.model_dump_exclude_id) ∧
    update_patient sampleStore "P001" emptyUpdate =
      .ok (setKey sampleStore "P001" samplePatient.model_dump_exclude_id) := by
  have h := C1_amended_persisted_shape sampleStore samplePatient2 "P001"
    emptyUpdate sampleRaw samplePatient
    (by with_unfolding_all decide) (by with_unfolding_all rfl)
    (by with_unfolding_all rfl)
  exact ⟨h.1, h.2.2.1⟩

/-- C2: for every defined bmi value b, the category is the five-way
classification of the source: b below 18.5 is Underweight; 18.5 up to
(excluding) 24.9 is Normal weight; 25 up to (excluding) 29.9 is
Overweight; every other defined value — including the gap from 24.9 up to
(excluding) 25 and everything from 29.9 up — is Obesity; an absent bmi is
Unknown.  (18.5 = 37/2, 24.9 = 249/10, 29.9 = 299/10.) -/
theorem C2_bmi_category_classification (b : ℚ) :
    (b < 37 / 2 → bmiCategoryOf (some b) = "Underweight") ∧
    (37 / 2 ≤ b → b < 249 / 10 → bmiCategoryOf (some b) = "Normal weight") ∧
    (25 ≤ b → b < 299 / 10 → bmiCategoryOf (some b) = "Overweight") ∧
    (¬ b < 37 / 2 → ¬ (37 / 2 ≤ b ∧ b < 249 / 10) → ¬ (25 ≤ b ∧ b < 299 / 10) →
      bmiCategoryOf (some b) = "Obesity") ∧
    (249 / 10 ≤ b → b < 25 → bmiCategoryOf (some b) = "Obesity") ∧
    (299 / 10 ≤ b → bmiCategoryOf (some b) = "Obesity") ∧
    bmiCategoryOf none = "Unknown" := by
  refine ⟨fun h1 => ?_, fun h1 h2 => ?_, fun h1 h2 => ?_, fun h1 h2 h3 => ?_,
    fun h1 h2 => ?_, fun h1 => ?_, rfl⟩
  · simp only [bmiCategoryOf, if_pos h1]
  · have hA : ¬ b < 37 / 2 := not_lt.mpr h1
    simp only [bmiCategoryOf, if_neg hA, if_pos (And.intro h1 h2)]
  · have hA : ¬ b < 37 / 2 := not_lt.mpr (by linarith)
    have hB : ¬ (37 / 2 ≤ b ∧ b < 249 / 10) := by rintro ⟨-, hb⟩; linarith
    simp only [bmiCategoryOf, if_neg hA, if_neg hB, if_pos (And.intro h1 h2)]
  · simp only [bmiCategoryOf, if_neg h1, if_neg h2, if_neg h3]
  · have hA : ¬ b < 37 / 2 := not_lt.mpr (by linarith)
    have hB : ¬ (37 / 2 ≤ b ∧ b < 249 / 10) := by rintro ⟨-, hb⟩; linarith
    have hC : ¬ (25 ≤ b ∧ b < 299 / 10) := by rintro ⟨hc, -⟩; linarith
    simp only [bmiCategoryOf, if_neg hA, if_neg hB, if_neg hC]
  · have hA : ¬ b < 37 / 2 := not_lt.mpr (by linarith)
    have hB : ¬ (37 / 2 ≤ b ∧ b < 249 / 10) := by rintro ⟨-, hb⟩; linarith
    have hC : ¬ (25 ≤ b ∧ b < 299 / 10) := by rintro ⟨-, hc⟩; linarith
    simp only [bmiCategoryOf, if_neg hA, if_neg hB, if_neg hC]

/-- C2 witness: the sample bmi 160/7 = 22.857... lands in the Normal weight
band. -/
theorem C2_witness :
    (37 / 2 : ℚ) ≤ 160 / 7 ∧ (160 / 7 : ℚ) < 249 / 10 ∧
    bmiCategoryOf (some (160 / 7)) = "Normal weight" :=
  ⟨by norm_num, by norm_num,
    (C2_bmi_category_classification (160 / 7)).2.1 (by norm_num) (by norm_num)⟩

/-- C3: the computed bmi is exactly weight / height^2 when both height and
weight are non-zero (truthy), is the absence marker when either is zero,
and an absent bmi always classifies as Unknown. -/
theorem C3_compute_bmi (p : Patient) :
    (p.height ≠ 0 → p.weight ≠ 0 → p.bmi = some (p.weight / p.height ^ 2)) ∧
    ((p.height = 0 ∨ p.weight = 0) → p.bmi = none) ∧
    (p.bmi = none → p.bmi_category = "Unknown") := by
  refine ⟨fun hh hw => ?_, fun h0 => ?_, fun hb => ?_⟩
  · simp [Patient.bmi, hh, hw]
  · rcases h0 with h0 | h0 <;> simp [Patient.bmi, h0]
  · simp [Patient.bmi_category, hb, bmiCategoryOf]

/-- C3 witness: the sample patient has non-zero height and weight and its
bmi evaluates to weight / height^2. -/
theorem C3_witness :
    samplePatient.height ≠ 0 ∧ samplePatient.weight ≠ 0 ∧
    samplePatient.bmi = some (samplePatient.weight / samplePatient.height ^ 2) :=
  ⟨by with_unfolding_all decide, by with_unfolding_all decide,
    (C3_compute_bmi samplePatient).1 (by with_unfolding_all decide)
      (by with_unfolding_all decide)⟩

/-- C4: under pydantic v2 a field annotated `Optional[T]` whose `Field(...)`
carries no default is required, so the `PatientUpdate` body rejects the
empty payload and any payload omitting a field; only payloads supplying all
six keys validate.  This contradicts the claimed (and clearly intended —
see the `exclude_unset` merge loop and its comment) any-subset contract. -/
theorem C4_update_payload_requires_all_fields :
    validatePatientUpdate {} = none ∧
    validatePatientUpdate { weight := some (JValue.jfloat 80) } = none ∧
    validatePatientUpdate
      { name := some (JValue.jstr "John Doe"), city := some (JValue.jstr "New York"),
        age := some (JValue.jint 30), height := some (JValue.jfloat (7 / 4)),
        gender := some (JValue.jstr "Male"), weight := some (JValue.jfloat 80) } =
      some { name := some (some "John Doe"), city := some (some "New York"),
             age := some (some 30), height := some (some (7 / 4)),
             gender := some (some Gender.Male), weight := some (some 80) } :=
  ⟨rfl, rfl, rfl⟩

/-- C5: merging a payload that sets only `weight` to W succeeds, changes
only `weight` (and hence the derived `bmi` and `bmi_category`) of the
materialized record, leaves `name`, `city`, `age`, `height` and `gender`
at their prior values, and keeps the id equal to the caller-supplied path
id (the payload type has no id field, so a smuggled id is ignored at
payload validation and the endpoint force-sets the path id anyway). -/
theorem C5_weight_only_update_frame (s : Store) (id : String) (r : RawRecord)
    (p : Patient) (W : ℚ)
    (hr : getKey s id = some r) (hv : validate id r = some p) :
    update_patient s id (weightOnlyUpdate W) =
      .ok (setKey s id ({ p with weight := W } : Patient).model_dump_exclude_id) ∧
    ({ p with weight := W } : Patient).name = p.name ∧
    ({ p with weight := W } : Patient).city = p.city ∧
    ({ p with weight := W } : Patient).age = p.age ∧
    ({ p with weight := W } : Patient).height = p.height ∧
    ({ p with weight := W } : Patient).gender = p.gender ∧
    ({ p with weight := W } : Patient).id = p.id ∧
    ({ p with weight := W } : Patient).id = id ∧
    ({ p with weight := W } : Patient).weight = W ∧
    ({ p with weight := W } : Patient).bmi =
      (if W ≠ 0 ∧ p.height ≠ 0 then some (W / p.height ^ 2) else none) ∧
    ({ p with weight := W } : Patient).bmi_category =
      bmiCategoryOf ({ p with weight := W } : Patient).bmi := by
  obtain ⟨hn, hc, ha, hh, hg, hw, hid⟩ := validate_fields hv
  subst hid
  have hn' : (applyUpdate r (weightOnlyUpdate W)).name.bind asStr = some p.name := hn
  have hc' : (applyUpdate r (weightOnlyUpdate W)).city.bind asStr = some p.city := hc
  have ha' : (applyUpdate r (weightOnlyUpdate W)).age.bind asInt = some p.age := ha
  have hh' : (applyUpdate r (weightOnlyUpdate W)).height.bind asFloat = some p.height := hh
  have hg' : (applyUpdate r (weightOnlyUpdate W)).gender.bind asGender = some p.gender := hg
  have hw' : (applyUpdate r (weightOnlyUpdate W)).weight.bind asFloat = some W := rfl
  have hv' : validate p.id (applyUpdate r (weightOnlyUpdate W)) =
      some ({ p with weight := W } : Patient) :=
    validate_some_of hn' hc' ha' hh' hg' hw'
  refine ⟨?_, rfl, rfl, rfl, rfl, rfl, rfl, rfl, rfl, rfl, rfl⟩
  simp [update_patient, hr, hv']

/-- C5 witness: concrete weight-only update of the stored sample patient. -/
theorem C5_witness :
    update_patient sampleStore "P001" (weightOnlyUpdate 80) =
      .ok (setKey sampleStore "P001"
        ({ samplePatient with weight := 80 } : Patient).model_dump_exclude_id) :=
  (C5_weight_only_update_frame sampleStore "P001" sampleRaw samplePatient 80
    (by with_unfolding_all rfl) (by with_unfolding_all rfl)).1

/-- C7: a create whose id already exists fails with the 400 conflict error
and leaves the persisted snapshot unchanged; an update whose merged record
fails re-validation fails with the propagated ValidationError and leaves
the persisted snapshot unchanged (the save call is only reached on the
success path). -/
theorem C7_failing_ops_leave_store_unchanged (s : Store) (p : Patient) (id : String)
    (u : PatientUpdate) (r : RawRecord)
    (hdup : hasKey s p.id = true)
    (hr : getKey s id = some r)
    (hbad : validate id (applyUpdate r u) = none) :
    create_patiet s p = .error (.http 400 "Patient ID already exists") ∧
    storeAfter (create_patiet s p) s = s ∧
    update_patient s id u = .error .validation ∧
    storeAfter (update_patient s id u) s = s := by
  have h1 : create_patiet s p = .error (.http 400 "Patient ID already exists") := by
    simp [create_patiet, hdup]
  have h2 : update_patient s id u = .error .validation := by
    simp [update_patient, hr, hbad]
  exact ⟨h1, by simp [storeAfter, h1], h2, by simp [storeAfter, h2]⟩

/-- C7 witness: creating "P001" again on the sample store raises the
conflict, and an update that sets gender explicitly to null fails the
merged-record validation; both leave the store as it was. -/
theorem C7_witness :
    create_patiet sampleStore samplePatient = .error (.http 400 "Patient ID already exists") ∧
    storeAfter (create_patiet sampleStore samplePatient) sampleStore = sampleStore ∧
    update_patient sampleStore "P001" (nullOnlyUpdate PField.gender) = .error .validation ∧
    storeAfter (update_patient sampleStore "P001" (nullOnlyUpdate PField.gender))
      sampleStore = sampleStore :=
  C7_failing_ops_leave_store_unchanged sampleStore samplePatient "P001"
    (nullOnlyUpdate PField.gender) sampleRaw
    (by with_unfolding_all rfl) (by with_unfolding_all rfl) (by with_unfolding_all rfl)

/-- C8 counterexample: the stored record under "P001" holds only the six
primary fields (a hand-written store file); merging the empty payload
re-persists it in dumped form, which adds the serialized `bmi` and
`bmi_category` keys — the persisted raw mapping for that id changes even
though no field was supplied. -/
theorem C8_counterexample :
    update_patient [("P001", plainRaw)] "P001" emptyUpdate = .ok [("P001", sampleRaw)] ∧
    sampleRaw ≠ plainRaw := by
  exact ⟨by with_unfolding_all rfl, by with_unfolding_all decide⟩

/-- C8 amended: merging the empty payload into any stored record that
validates yields the same materialized Patient (hence identical derived
fields, which are functions of the Patient), and re-persists its dump;
the persisted raw mapping for that id is unchanged exactly when the stored
mapping already is the canonical dumped form that create and update write
(otherwise it is rewritten to that canonical form). -/
theorem C8_amended_empty_merge (s : Store) (id : String) (r : RawRecord) (p : Patient)
    (hr : getKey s id = some r) (hv : validate id r = some p) :
    update_patient s id emptyUpdate = .ok (setKey s id p.model_dump_exclude_id) ∧
    validate id p.model_dump_exclude_id = some p ∧
    (r = p.model_dump_exclude_id → update_patient s id emptyUpdate = .ok s) := by
  have hid : p.id = id := (validate_fields hv).2.2.2.2.2.2
  have h1 : update_patient s id emptyUpdate = .ok (setKey s id p.model_dump_exclude_id) := by
    simp [update_patient, hr, applyUpdate_empty, hv]
  refine ⟨h1, validate_dump hid, fun hcanon => ?_⟩
  rw [h1, getKey_setKey_self (hcanon ▸ hr)]

/-- C8 amended, witness: the sample store holds the canonical dump, so the
concrete empty-payload update returns the store unchanged. -/
theorem C8_witness :
    update_patient sampleStore "P001" emptyUpdate = .ok sampleStore :=
  (C8_amended_empty_merge sampleStore "P001" sampleRaw samplePatient
    (by with_unfolding_all rfl) (by with_unfolding_all rfl)).2.2 rfl

/-- C9 counterexample: the flattening the code actually persists
(`model_dump(exclude=['id'])`) does not exclude the derived fields: for the
concrete raw record that validates to the sample patient, the flattened
mapping carries `bmi` and `bmi_category` keys. -/
theorem C9_counterexample :
    validate "P001" plainRaw = some samplePatient ∧
    samplePatient.model_dump_exclude_id.bmi = some (JValue.jfloat (160 / 7)) ∧
    samplePatient.model_dump_exclude_id.bmi ≠ none ∧
    samplePatient.model_dump_exclude_id.bmi_category = some (JValue.jstr "Normal weight") := by
  exact ⟨by with_unfolding_all rfl, by with_unfolding_all rfl,
    by with_unfolding_all decide, by with_unfolding_all rfl⟩

/-- C9 amended: flattening excludes only the id and includes the recomputed
derived fields; validation ignores the extra keys, so
validate(flatten(validate(raw))) = validate(raw) for every raw record that
validates, and persisting then re-reading yields the same validated
Patient. -/
theorem C9_amended_round_trip (id : String) (r : RawRecord) (p : Patient)
    (hv : validate id r = some p) :
    validate id p.model_dump_exclude_id = some p ∧
    p.model_dump_exclude_id.bmi = some (jOfOptFloat p.bmi) ∧
    p.model_dump_exclude_id.bmi_category = some (JValue.jstr p.bmi_category) := by
  exact ⟨validate_dump (validate_fields hv).2.2.2.2.2.2, rfl, rfl⟩

/-- C9 amended, witness: concrete round trip through the sample raw
record. -/
theorem C9_witness :
    validate "P001" samplePatient.model_dump_exclude_id = some samplePatient :=
  (C9_amended_round_trip "P001" plainRaw samplePatient (by with_unfolding_all rfl)).1

/-- C10: a payload field supplied explicitly as null counts as set: the
merge writes the null over the stored value (for every one of the six
primary fields), the merged mapping then fails whole-record validation
(no primary field accepts null), the endpoint fails with the propagated
ValidationError, and the persisted snapshot is unchanged — an explicit
null can never clear a field of a persisted record. -/
theorem C10_explicit_null_rejected (s : Store) (id : String) (r : RawRecord) (f : PField)
    (hr : getKey s id = some r) :
    rawField f (applyUpdate r (nullOnlyUpdate f)) = some JValue.jnull ∧
    validate id (applyUpdate r (nullOnlyUpdate f)) = none ∧
    update_patient s id (nullOnlyUpdate f) = .error .validation ∧
    storeAfter (update_patient s id (nullOnlyUpdate f)) s = s := by
  have h1 : rawField f (applyUpdate r (nullOnlyUpdate f)) = some JValue.jnull := by
    cases f <;> rfl
  have h2 : validate id (applyUpdate r (nullOnlyUpdate f)) = none := by
    cases hvv : validate id (applyUpdate r (nullOnlyUpdate f)) with
    | none => rfl
    | some p =>
      exfalso
      obtain ⟨hn, hc, ha, hh, hg, hw, -⟩ := validate_fields hvv
      cases f
      · exact Option.noConfusion (show (none : Option String) = some p.name from hn)
      · exact Option.noConfusion (show (none : Option String) = some p.city from hc)
      · exact Option.noConfusion (show (none : Option Int) = some p.age from ha)
      · exact Option.noConfusion (show (none : Option ℚ) = some p.height from hh)
      · exact Option.noConfusion (show (none : Option Gender) = some p.gender from hg)
      · exact Option.noConfusion (show (none : Option ℚ) = some p.weight from hw)
  have h3 : update_patient s id (nullOnlyUpdate f) = .error .validation := by
    simp [update_patient, hr, h2]
  exact ⟨h1, h2, h3, by simp [storeAfter, h3]⟩

/-- C10 witness: concrete explicit-null update of the stored sample
patient's height. -/
theorem C10_witness :
    update_patient sampleStore "P001" (nullOnlyUpdate PField.height) = .error .validation :=
  (C10_explicit_null_rejected sampleStore "P001" sampleRaw PField.height
    (by with_unfolding_all rfl)).2.2.1

/-- Totality of the sort endpoint's comparison, for either direction. -/
theorem sortCmp_total (o : String) (a b : ℚ × RawRecord) :
    (if o = "desc" then decide (b.1 ≤ a.1) else decide (a.1 ≤ b.1)) = true ∨
    (if o = "desc" then decide (a.1 ≤ b.1) else decide (b.1 ≤ a.1)) = true := by
  by_cases ho : o = "desc"
  · subst ho
    rw [if_pos rfl, if_pos rfl]
    rcases le_total b.1 a.1 with h | h
    · exact Or.inl (decide_eq_true h)
    · exact Or.inr (decide_eq_true h)
  · rw [if_neg ho, if_neg ho]
    rcases le_total a.1 b.1 with h | h
    · exact Or.inl (decide_eq_true h)
    · exact Or.inr (decide_eq_true h)

/-- Transitivity of the sort endpoint's comparison, for either direction. -/
theorem sortCmp_trans (o : String) (a b c : ℚ × RawRecord) :
    (if o = "desc" then decide (b.1 ≤ a.1) else decide (a.1 ≤ b.1)) = true →
    (if o = "desc" then decide (c.1 ≤ b.1) else decide (b.1 ≤ c.1)) = true →
    (if o = "desc" then decide (c.1 ≤ a.1) else decide (a.1 ≤ c.1)) = true := by
  by_cases ho : o = "desc"
  · subst ho
    rw [if_pos rfl, if_pos rfl, if_pos rfl]
    intro h1 h2
    exact decide_eq_true (le_trans (of_decide_eq_true h2) (of_decide_eq_true h1))
  · rw [if_neg ho, if_neg ho, if_neg ho]
    intro h1 h2
    exact decide_eq_true (le_trans (of_decide_eq_true h1) (of_decide_eq_true h2))

/-- C6 counterexample: the sort endpoint does not return validated
materialized Patients — with a stored record whose gender is not one of the
enumerated values, sorting by height succeeds and returns the stored raw
mapping verbatim (id-less, never validated), although that record fails
validation. -/
theorem C6_counterexample :
    sort_patients [("P001", badRaw)] "height" "asc" = .ok [badRaw] ∧
    validate "P001" badRaw = none := by
  exact ⟨by with_unfolding_all rfl, by with_unfolding_all rfl⟩

/-- C6 amended: for sort_by in {height, weight, bmi} and order in
{asc, desc} the endpoint returns the stored raw mappings themselves (no
re-validation, no id), ordered by the raw value of the chosen field in the
chosen direction, whenever every stored record carries a numeric value at
that field; an unrecognized sort_by or order is rejected with a 400
client error whose value is the same for every store — the check happens
before the store is read — and no data is returned. -/
theorem C6_sort_contract (s : Store) (f o : String) :
    (f ∉ (["height", "weight", "bmi"] : List String) →
      sort_patients s f o =
        .error (.http 400 "Invalid sort_by field. Must be one of height, weight, bmi")) ∧
    (f ∈ (["height", "weight", "bmi"] : List String) →
      o ∉ (["asc", "desc"] : List String) →
      sort_patients s f o = .error (.http 400 "Invalid order. Must be asc or desc")) ∧
    (∀ ks : List (ℚ × RawRecord), f ∈ (["height", "weight", "bmi"] : List String) →
      keyedVals f (s.map Prod.snd) = some ks →
      ks.map Prod.snd = s.map Prod.snd ∧
      (∃ l : List (ℚ × RawRecord), sort_patients s f "asc" = .ok (l.map Prod.snd) ∧
        List.Perm l ks ∧ l.Pairwise (fun x y => x.1 ≤ y.1)) ∧
      (∃ l : List (ℚ × RawRecord), sort_patients s f "desc" = .ok (l.map Prod.snd) ∧
        List.Perm l ks ∧ l.Pairwise (fun x y => y.1 ≤ x.1))) := by
  refine ⟨fun hf => ?_, fun hf ho => ?_, fun ks hf hks => ?_⟩
  · simp [sort_patients, hf]
  · have hf' : ¬ f ∉ (["height", "weight", "bmi"] : List String) := not_not_intro hf
    simp only [sort_patients, if_neg hf', if_pos ho]
  · have hf' : ¬ f ∉ (["height", "weight", "bmi"] : List String) := not_not_intro hf
    have hmap := keyedVals_map_snd hks
    refine ⟨hmap, ?_, ?_⟩
    · refine ⟨sortLe (fun a b =>
        if ("asc" : String) = "desc" then decide (b.1 ≤ a.1) else decide (a.1 ≤ b.1)) ks,
        ?_, sortLe_perm _ ks, ?_⟩
      · simp only [sort_patients, if_neg hf']
        rw [if_neg (by decide : ¬ (("asc" : String) ∉ (["asc", "desc"] : List String))), hks]
      · have hpair := @sortLe_pairwise (ℚ × RawRecord)
          (fun a b => if ("asc" : String) = "desc" then decide (b.1 ≤ a.1) else decide (a.1 ≤ b.1))
          (sortCmp_total "asc") (sortCmp_trans "asc") ks
        refine hpair.imp ?_
        intro x y h
        rw [if_neg (by decide : ¬ ("asc" : String) = "desc")] at h
        exact of_decide_eq_true h
    · refine ⟨sortLe (fun a b =>
        if ("desc" : String) = "desc" then decide (b.1 ≤ a.1) else decide (a.1 ≤ b.1)) ks,
        ?_, sortLe_perm _ ks, ?_⟩
      · simp only [sort_patients, if_neg hf']
        rw [if_neg (by decide : ¬ (("desc" : String) ∉ (["asc", "desc"] : List String))), hks]
      · have hpair := @sortLe_pairwise (ℚ × RawRecord)
          (fun a b => if ("desc" : String) = "desc" then decide (b.1 ≤ a.1) else decide (a.1 ≤ b.1))
          (sortCmp_total "desc") (sortCmp_trans "desc") ks
        refine hpair.imp ?_
        intro x y h
        rw [if_pos (rfl : ("desc" : String) = "desc")] at h
        exact of_decide_eq_true h

/-- C6 witness: sorting the sample store by the unrecognized field "name"
yields the 400 client error. -/
theorem C6_witness :
    sort_patients sampleStore "name" "asc" =
      .error (.http 400 "Invalid sort_by field. Must be one of height, weight, bmi") :=
  (C6_sort_contract sampleStore "name" "asc").1 (by decide)
